import Mathlib

/-!
Shallow embedding of `src/main.go` (go-fetch): a concurrent fetch/retry/
aggregate engine.  The program spawns one goroutine per identifier, each
goroutine (`fetch`) performs one HTTP attempt and posts exactly one message
to one of two unbuffered channels (`chr` for success `Response`s, `chn` for
failed `Node`s), an aggregator goroutine consumes both channels — inserting
parsed photos into a map keyed by the parsed payload's `ID`, or incrementing
`Attempts` and respawning while `Attempts <= 3` — and `main` waits on a
`sync.WaitGroup` before printing the store.

Bytes are modelled as `List Nat`; `json.Unmarshal` (an external library
call) is a parameter `Decoder`; the HTTP layer is a parameter giving each
attempt's outcome (`HttpOutcome`).  Latency (`Response.Time`, a float in Go)
is modelled as an abstract `Nat`: no claim depends on its value.
-/

/-- Bytes of an HTTP body (`[]byte` in Go). -/
def Bytes : Type := List Nat

deriving instance DecidableEq, Inhabited for Bytes

/-- `type Response struct { Message string; Body []byte; Time float64 }` —
the success-queue message.  Note it has no identifier field. -/
structure Response where
  Message : String
  Body : Bytes
  Time : Nat
deriving DecidableEq

/-- `type Node struct { ID int; Attempts int }` — one unit of work. -/
structure Node where
  ID : Nat
  Attempts : Nat
deriving DecidableEq

/-- `type Photo struct { ID int; Title string; Url string; Thumbnail string }`. -/
structure Photo where
  ID : Nat
  Title : String
  Url : String
  Thumbnail : String
deriving DecidableEq

/-- Outcome of the external HTTP layer for one attempt, covering every
branch `fetch` distinguishes: `http.NewRequestWithContext` error,
`client.Do` error (transport failure or context deadline), or a response
with a status code and a body that `io.ReadAll` reads (`some bytes`) or
fails to read (`none`). -/
inductive HttpOutcome where
  | reqErr : HttpOutcome
  | doErr : HttpOutcome
  | ok : Nat → Option Bytes → HttpOutcome
deriving DecidableEq

/-- The single message a `fetch` goroutine posts: either a `Response` on
channel `chr` or the (unmodified) `Node` on channel `chn`. -/
inductive ChanMsg where
  | toChr : Response → ChanMsg
  | toChn : Node → ChanMsg
deriving DecidableEq

/-- `func fetch(node *Node, chr chan *Response, chn chan *Node, wg *sync.WaitGroup)`:
given the HTTP layer's outcome for this attempt and the elapsed time, the
worker posts exactly one message.  Every error path (`err != nil` on
request construction, `err != nil || res.StatusCode != http.StatusOK` on
`client.Do`, `err != nil` on `io.ReadAll`) sends the node unchanged on
`chn`; the success path sends `Response{"Success", body, elapsed}` on
`chr`. -/
def fetch (node : Node) (h : HttpOutcome) (elapsed : Nat) : ChanMsg :=
  match h with
  | HttpOutcome.reqErr => ChanMsg.toChn node
  | HttpOutcome.doErr => ChanMsg.toChn node
  | HttpOutcome.ok status body =>
    if status ≠ 200 then ChanMsg.toChn node
    else
      match body with
      | none => ChanMsg.toChn node
      | some b => ChanMsg.toChr ⟨"Success", b, elapsed⟩

/-- The body delivered by a fully successful HTTP attempt
(status 200 and a readable body), `none` if the attempt fails in any of the
ways `fetch` treats as failure. -/
def successBody (h : HttpOutcome) : Option Bytes :=
  match h with
  | HttpOutcome.reqErr => none
  | HttpOutcome.doErr => none
  | HttpOutcome.ok status body => if status ≠ 200 then none else body

/-- External `json.Unmarshal` into `Photo`, abstracted: `none` models a
decode error. -/
def Decoder : Type := Bytes → Option Photo

/-- `func parse(body *[]byte) (*Photo, error)`: unmarshal the body,
propagating the decode error. -/
def parse (d : Decoder) (body : Bytes) : Option Photo := d body

/-- The HTTP layer's behaviour: for an identifier and a (1-based) attempt
number, the outcome of that attempt. -/
def Collab : Type := Nat → Nat → HttpOutcome

/-- The result store `map[int]*Photo`, represented as an association list
(one entry per key). -/
def Store : Type := List (Nat × Photo)

deriving instance DecidableEq, Inhabited for Store

/-- Go map lookup `photos[k]`. -/
def storeGet : Store → Nat → Option Photo
  | [], _ => none
  | kv :: rest, k => if kv.1 = k then some kv.2 else storeGet rest k

/-- Go map assignment `photos[k] = v`: replace the entry for `k` if
present, otherwise append it. -/
def storeSet : Store → Nat → Photo → Store
  | [], k, v => [(k, v)]
  | kv :: rest, k, v =>
    if kv.1 = k then (k, v) :: rest else kv :: storeSet rest k v

/-- The aggregator's `case res := <-chr` branch: parse the body; on decode
error `continue` (store unchanged), otherwise `photos[photo.ID] = photo` —
keyed by the parsed payload's own `ID` field. -/
def handleSuccess (d : Decoder) (st : Store) (r : Response) : Store :=
  match parse d r.Body with
  | none => st
  | some photo => storeSet st photo.ID photo

/-- The per-identifier attempt chain, sequential because a respawn is only
created after its predecessor's failure is consumed: run the attempt for
`node` (attempt number `node.Attempts + 1`); on a success message the chain
terminates with the parse result (a decode error drops the identifier, no
retry); on a failure message the aggregator increments `Attempts` and
respawns while `Attempts ≤ 3`, otherwise drops.  Returns the terminal
parse result and the number of `fetch` invocations.  `fuel` bounds the
recursion; from `Attempts = 0` the chain runs at most 4 attempts, so fuel 4
is exact. -/
def runNode (c : Collab) (d : Decoder) : Node → Nat → Option Photo × Nat
  | _, 0 => (none, 0)
  | node, fuel + 1 =>
    match fetch node (c node.ID (node.Attempts + 1)) 0 with
    | ChanMsg.toChr r => (parse d r.Body, 1)
    | ChanMsg.toChn n =>
      if n.Attempts + 1 ≤ 3 then
        let res := runNode c d { n with Attempts := n.Attempts + 1 } fuel
        (res.1, res.2 + 1)
      else (none, 1)

/-- The whole attempt chain of one identifier, started as `main` does with
`Node{ID: id, Attempts: 0}`. -/
def runId (c : Collab) (d : Decoder) (id : Nat) : Option Photo × Nat :=
  runNode c d ⟨id, 0⟩ 4

/-- One store transition of the aggregator for the terminal outcome of
identifier `id`: a parsed success inserts at the photo's `ID`, anything
else leaves the store unchanged. -/
def stepStore (c : Collab) (d : Decoder) (st : Store) (id : Nat) : Store :=
  match (runId c d id).1 with
  | some p => storeSet st p.ID p
  | none => st

/-- The final store of a run in which the aggregator consumes the
identifiers' terminal outcomes in the order `order` (the channels deliver
messages from concurrent goroutines in a nondeterministic order, so any
permutation of the identifier list is a possible run). -/
def finalStoreOrdered (c : Collab) (d : Decoder) (order : List Nat) : Store :=
  order.foldl (stepStore c d) []

/-- `requests := 4500` in `main`; the identifier list is `1, …, requests`. -/
def requests : Nat := 4500

/-- The identifier list `ids` built by `main`: `ids[i] = i + 1`. -/
def mainIds (n : Nat) : List Nat := (List.range n).map (fun i => i + 1)

/-- The keys `func print` actually looks up: its loop runs
`for i := 0; i < len(*photos); i++` and reads `(*photos)[i+1]`, so the
visited keys are `1, …, len(photos)`. -/
def visitedKeys (photos : Store) : List Nat :=
  (List.range photos.length).map (fun i => i + 1)

/-- The store entries `print` emits (each printed as `photo.ID`,
`photo.Thumbnail`): the lookups at the visited keys that exist
(missing keys are skipped by `continue`). -/
def printedEntries (photos : Store) : List Photo :=
  (List.range photos.length).filterMap (fun i => storeGet photos (i + 1))

/-- The lines `fmt.Println(photo.ID, photo.Thumbnail)` produces. -/
def printedLines (photos : Store) : List (Nat × String) :=
  (printedEntries photos).map (fun p => (p.ID, p.Thumbnail))

/-- The count printed by `fmt.Println("Total:", len(*photos))`. -/
def printedTotal (photos : Store) : Nat := photos.length

/-!
Small-step model of the concurrent run, for the completion / accounting
claims.  A worker goroutine is `running` until its channel send completes
(the channels are unbuffered, so the send is a rendezvous with the
aggregator's `select`), then `sent`: it still has to execute its trailing
`wg.Done()`.  The aggregator is `idle` at the `select`, or busy processing
one received message.  `main`'s `wg.Wait()` is the `complete` step, enabled
exactly when the WaitGroup counter is zero.
-/

/-- Phase of one `fetch` goroutine. -/
inductive WorkerState where
  | running : Node → WorkerState
  | sent : WorkerState
deriving DecidableEq

/-- Phase of the aggregator goroutine. -/
inductive AggState where
  | idle : AggState
  | busySucc : Response → AggState
  | busyFail : Node → AggState
deriving DecidableEq

/-- Global state of a run: the WaitGroup counter `wg`, the history
counters (`spawned` = `wg.Add(1)` calls, `doneCalls` = `wg.Done()` calls,
`consumed` = outcomes fully processed by the aggregator), the live worker
goroutines, the aggregator phase, the store, and whether `wg.Wait()` has
returned. -/
structure GoState where
  wg : Int
  spawned : Nat
  doneCalls : Nat
  consumed : Nat
  workers : List WorkerState
  agg : AggState
  store : Store
  completed : Bool
deriving DecidableEq

/-- The state after `main`'s spawn loop: `n` workers `Node{i+1, 0}`, the
WaitGroup counter at `n`, the aggregator at its `select`, the store empty. -/
def initState (n : Nat) : GoState :=
  { wg := (n : Int), spawned := n, doneCalls := 0, consumed := 0,
    workers := (List.range n).map (fun i => WorkerState.running ⟨i + 1, 0⟩),
    agg := AggState.idle, store := [], completed := false }

/-- One interleaving step of the Go program.  `deliver_success` /
`deliver_failure`: a running worker's single send rendezvouses with the
idle aggregator's `select` (the worker still owes its `wg.Done()`).
`worker_done`: a worker that has sent executes `wg.Done()` and exits.
`agg_success`: the aggregator finishes the `chr` branch (parse + insert).
`agg_fail_retry` / `agg_fail_drop`: the aggregator finishes the `chn`
branch — `node.Attempts++`, then, if `Attempts <= 3`, `wg.Add(1)` and
`go fetch(node, …)`, else nothing.  `complete`: `wg.Wait()` returns when
the counter is zero. -/
inductive Step (c : Collab) (d : Decoder) : GoState → GoState → Prop where
  | deliver_success (s : GoState) (pre post : List WorkerState) (n : Node)
      (t : Nat) (r : Response) :
      s.workers = pre ++ WorkerState.running n :: post →
      s.agg = AggState.idle →
      fetch n (c n.ID (n.Attempts + 1)) t = ChanMsg.toChr r →
      Step c d s { s with workers := pre ++ WorkerState.sent :: post,
                          agg := AggState.busySucc r }
  | deliver_failure (s : GoState) (pre post : List WorkerState) (n m : Node)
      (t : Nat) :
      s.workers = pre ++ WorkerState.running n :: post →
      s.agg = AggState.idle →
      fetch n (c n.ID (n.Attempts + 1)) t = ChanMsg.toChn m →
      Step c d s { s with workers := pre ++ WorkerState.sent :: post,
                          agg := AggState.busyFail m }
  | worker_done (s : GoState) (pre post : List WorkerState) :
      s.workers = pre ++ WorkerState.sent :: post →
      Step c d s { s with workers := pre ++ post, wg := s.wg - 1,
                          doneCalls := s.doneCalls + 1 }
  | agg_success (s : GoState) (r : Response) :
      s.agg = AggState.busySucc r →
      Step c d s { s with agg := AggState.idle, consumed := s.consumed + 1,
                          store := handleSuccess d s.store r }
  | agg_fail_retry (s : GoState) (n : Node) :
      s.agg = AggState.busyFail n →
      n.Attempts + 1 ≤ 3 →
      Step c d s { s with agg := AggState.idle, consumed := s.consumed + 1,
                          wg := s.wg + 1, spawned := s.spawned + 1,
                          workers := s.workers
                            ++ [WorkerState.running ⟨n.ID, n.Attempts + 1⟩] }
  | agg_fail_drop (s : GoState) (n : Node) :
      s.agg = AggState.busyFail n →
      ¬ n.Attempts + 1 ≤ 3 →
      Step c d s { s with agg := AggState.idle, consumed := s.consumed + 1 }
  | complete (s : GoState) :
      s.wg = 0 →
      s.completed = false →
      Step c d s { s with completed := true }

/-- Reachability along interleaving steps. -/
def Reach (c : Collab) (d : Decoder) : GoState → GoState → Prop :=
  Relation.ReflTransGen (Step c d)

/-- The terminal photos of pairwise distinct identifiers have pairwise
distinct `ID` fields (colliding photos coincide): the hypothesis under
which the aggregator's insertions commute. -/
def DistinctIDs (c : Collab) (d : Decoder) (order : List Nat) : Prop :=
  ∀ i ∈ order, ∀ j ∈ order, ∀ p q : Photo,
    (runId c d i).1 = some p → (runId c d j).1 = some q → p.ID = q.ID → p = q


/-!
A concrete schedule of the real program exhibiting the completion race:
one identifier whose only attempt fails (`client.Do` error), with the
worker's trailing `wg.Done()` scheduled before the aggregator finishes the
`chn` branch.  `wg.Wait()` then returns while the failure outcome is still
being processed and its retry respawn is still pending.
-/

/-- HTTP layer for the race schedule: every attempt fails in `client.Do`. -/
def raceCollab : Collab := fun _ _ => HttpOutcome.doErr

/-- Decoder for the race schedule (never consulted). -/
def raceDecode : Decoder := fun _ => none

/-- Race schedule, state 0: `main` has spawned the single worker. -/
def raceS0 : GoState := initState 1

/-- State 1: the worker's `chn <- node` has rendezvoused with the
aggregator's `select`; the worker has not yet called `wg.Done()`. -/
def raceS1 : GoState :=
  { raceS0 with workers := [WorkerState.sent],
                agg := AggState.busyFail ⟨1, 0⟩ }

/-- State 2: the worker runs `wg.Done()` and exits — the WaitGroup counter
hits zero although the aggregator has not processed the failure. -/
def raceS2 : GoState :=
  { raceS1 with workers := [], wg := raceS1.wg - 1,
                doneCalls := raceS1.doneCalls + 1 }

/-- State 3: `wg.Wait()` returns and `main` proceeds to `print`, while the
failure outcome is still unconsumed and its respawn pending. -/
def raceS3 : GoState := { raceS2 with completed := true }

/-- State 4: only now does the aggregator finish the `chn` branch —
`Attempts++`, `wg.Add(1)`, `go fetch(...)` — so a new attempt is in flight
after completion was signalled. -/
def raceS4 : GoState :=
  { raceS3 with agg := AggState.idle, consumed := raceS3.consumed + 1,
                wg := raceS3.wg + 1, spawned := raceS3.spawned + 1,
                workers := [WorkerState.running ⟨1, 1⟩] }


/-! ### Concrete collaborators used by the scenario and counterexample
theorems -/

/-- Identifier 1 succeeds immediately; every other identifier always fails. -/
def strayCollab : Collab := fun id _ =>
  if id = 1 then HttpOutcome.ok 200 (some [1]) else HttpOutcome.doErr

/-- A payload whose JSON `id` field is 2, returned for identifier 1's body. -/
def strayPhoto : Photo := ⟨2, "stray", "", ""⟩

/-- Decoder sending identifier 1's body to a photo whose `ID` is 2. -/
def strayDecode : Decoder := fun b => if b = [1] then some strayPhoto else none

/-- Every attempt of every identifier succeeds with body `[1]`. -/
def mislabelCollab : Collab := fun _ _ => HttpOutcome.ok 200 (some [1])

/-- A payload whose JSON `id` field is 5. -/
def mislabelPhoto : Photo := ⟨5, "mislabel", "", ""⟩

/-- Decoder parsing every body to a photo whose `ID` is 5. -/
def mislabelDecode : Decoder := fun _ => some mislabelPhoto

/-- A payload whose JSON `id` field is 7. -/
def payloadPhoto : Photo := ⟨7, "payload", "", ""⟩

/-- Decoder parsing every body to `payloadPhoto`. -/
def payloadDecode : Decoder := fun _ => some payloadPhoto

/-- Every attempt succeeds with a body its decoder will reject. -/
def malformedCollab : Collab := fun _ _ => HttpOutcome.ok 200 (some [0])

/-- Decoder that always fails: every payload is malformed. -/
def malformedDecode : Decoder := fun _ => none

/-- Scenario collaborator: identifiers 2 and 4 fail on every attempt, all
others succeed at once with body `[id]`. -/
def scenarioCollab : Collab := fun id _ =>
  if id = 2 ∨ id = 4 then HttpOutcome.doErr else HttpOutcome.ok 200 (some [id])

/-- Decoder reading the body `[i]` back as the photo with `ID = i`: the
well-behaved case in which each payload echoes its identifier. -/
def echoDecode : Decoder := fun b =>
  match b with
  | [i] => some ⟨i, "", "", ""⟩
  | _ => none

/-- Deterministic always-succeed collaborator: body `[id]`, one attempt. -/
def alwaysOkCollab : Collab := fun id _ => HttpOutcome.ok 200 (some [id])

/-- Decoder sending the bodies of identifiers 1 and 2 to two different
photos that share `ID = 7`. -/
def collideDecode : Decoder := fun b =>
  match b with
  | [1] => some ⟨7, "first", "", ""⟩
  | [2] => some ⟨7, "second", "", ""⟩
  | _ => none

/-! ### Helper lemmas -/

theorem storeGet_storeSet (st : Store) (k : Nat) (v : Photo) (k' : Nat) :
    storeGet (storeSet st k v) k' = if k = k' then some v else storeGet st k' := by
  induction st with
  | nil => simp [storeSet, storeGet]
  | cons kv rest ih =>
    simp only [storeSet]
    by_cases hk : kv.1 = k
    · subst hk
      simp only [if_pos rfl, storeGet]
      by_cases hk' : kv.1 = k'
      · simp [hk']
      · simp [storeGet, hk']
    · simp only [if_neg hk, storeGet, ih]
      by_cases hk' : kv.1 = k'
      · have hkk : ¬ k = k' := by
          intro h
          exact hk (by rw [hk', h])
        simp [hk', hkk]
      · simp [hk']

theorem fetch_toChn_of_fail (n : Node) (o : HttpOutcome) (t : Nat)
    (h : successBody o = none) : fetch n o t = ChanMsg.toChn n := by
  cases o with
  | reqErr => rfl
  | doErr => rfl
  | ok status body =>
    by_cases hs : status ≠ 200
    · simp [fetch, if_pos hs]
    · simp only [successBody, if_neg hs] at h
      subst h
      simp [fetch, if_neg hs]

theorem fetch_toChr_of_success (n : Node) (o : HttpOutcome) (t : Nat)
    (b : Bytes) (h : successBody o = some b) :
    fetch n o t = ChanMsg.toChr ⟨"Success", b, t⟩ := by
  cases o with
  | reqErr => exact absurd h (by simp [successBody])
  | doErr => exact absurd h (by simp [successBody])
  | ok status body =>
    by_cases hs : status ≠ 200
    · simp only [successBody, if_pos hs] at h
      exact absurd h (by simp)
    · simp only [successBody, if_neg hs] at h
      subst h
      simp [fetch, if_neg hs]

/-- A failing attempt chain: when attempts `a+1, …, 4` of identifier `id`
all fail, the chain starting at `Attempts = a` with fuel `4 - a` runs
`4 - a` fetches and terminates with no photo. -/
theorem runNode_all_fail (c : Collab) (d : Decoder) (id : Nat) :
    ∀ fuel a : Nat, fuel + a = 4 →
    (∀ k : Nat, a + 1 ≤ k → k ≤ 4 → successBody (c id k) = none) →
    runNode c d ⟨id, a⟩ fuel = (none, fuel) := by
  intro fuel
  induction fuel with
  | zero => intro a _ _; rfl
  | succ m ih =>
    intro a ha hfail
    have hfa : successBody (c id (a + 1)) = none := hfail (a + 1) le_rfl (by omega)
    simp only [runNode]
    rw [fetch_toChn_of_fail _ _ _ hfa]
    by_cases hlim : a + 1 ≤ 3
    · simp only [if_pos hlim]
      rw [ih (a + 1) (by omega) (fun k h1 h2 => hfail k (by omega) h2)]
    · simp only [if_neg hlim]
      have hm : m = 0 := by omega
      subst hm
      rfl


/-- Consuming outcomes none of whose parsed photos carry key `k` leaves the
lookup at `k` unchanged. -/
theorem storeGet_foldl_no_insert (c : Collab) (d : Decoder) (order : List Nat)
    (k : Nat)
    (h : ∀ j ∈ order, ∀ q : Photo, (runId c d j).1 = some q → q.ID ≠ k) :
    ∀ st : Store,
      storeGet (order.foldl (stepStore c d) st) k = storeGet st k := by
  induction order with
  | nil => intro st; rfl
  | cons j rest ih =>
    intro st
    rw [List.foldl_cons,
      ih (fun j' hj' q hq => h j' (List.mem_cons_of_mem j hj') q hq)]
    unfold stepStore
    cases hr : (runId c d j).1 with
    | none => rfl
    | some q =>
      have hne : q.ID ≠ k := h j (List.mem_cons_self j rest) q hr
      rw [storeGet_storeSet, if_neg hne]

/-- Once the lookup at `k` is `some p`, consuming outcomes whose photos at
key `k` can only be `p` itself keeps it `some p`. -/
theorem storeGet_foldl_preserve (c : Collab) (d : Decoder) (order : List Nat)
    (k : Nat) (p : Photo)
    (h : ∀ j ∈ order, ∀ q : Photo, (runId c d j).1 = some q → q.ID = k → q = p) :
    ∀ st : Store, storeGet st k = some p →
      storeGet (order.foldl (stepStore c d) st) k = some p := by
  induction order with
  | nil => intro st hst; exact hst
  | cons j rest ih =>
    intro st hst
    rw [List.foldl_cons]
    refine ih (fun j' hj' q hq hid => h j' (List.mem_cons_of_mem j hj') q hq hid) _ ?_
    unfold stepStore
    cases hr : (runId c d j).1 with
    | none => exact hst
    | some q =>
      rw [storeGet_storeSet]
      by_cases hid : q.ID = k
      · rw [if_pos hid]
        rw [h j (List.mem_cons_self j rest) q hr hid]
      · rw [if_neg hid]
        exact hst

/-- Folding the aggregator's store transition over pointwise-equal stores
yields pointwise-equal stores. -/
theorem storeGet_foldl_congr (c : Collab) (d : Decoder) (order : List Nat) :
    ∀ st₁ st₂ : Store, (∀ k, storeGet st₁ k = storeGet st₂ k) →
      ∀ k, storeGet (order.foldl (stepStore c d) st₁) k
        = storeGet (order.foldl (stepStore c d) st₂) k := by
  induction order with
  | nil => intro st₁ st₂ h k; exact h k
  | cons j rest ih =>
    intro st₁ st₂ h k
    rw [List.foldl_cons, List.foldl_cons]
    refine ih _ _ (fun k' => ?_) k
    unfold stepStore
    cases (runId c d j).1 with
    | none => exact h k'
    | some q => rw [storeGet_storeSet, storeGet_storeSet, h k']

/-- Two consecutive aggregator store transitions commute (pointwise)
whenever photos that collide on their `ID` are equal. -/
theorem stepStore_comm (c : Collab) (d : Decoder) (x y : Nat) (st : Store)
    (h : ∀ p q : Photo, (runId c d x).1 = some p → (runId c d y).1 = some q →
      p.ID = q.ID → p = q) :
    ∀ k, storeGet (stepStore c d (stepStore c d st x) y) k
      = storeGet (stepStore c d (stepStore c d st y) x) k := by
  intro k
  unfold stepStore
  cases hx : (runId c d x).1 with
  | none =>
    cases hy : (runId c d y).1 with
    | none => rfl
    | some q => rfl
  | some p =>
    cases hy : (runId c d y).1 with
    | none => rfl
    | some q =>
      by_cases hid : p.ID = q.ID
      · have hpq : p = q := h p q hx hy hid
        subst hpq
        rfl
      · rw [storeGet_storeSet, storeGet_storeSet, storeGet_storeSet,
          storeGet_storeSet]
        by_cases hpk : p.ID = k
        · have hqk : ¬ q.ID = k := by
            intro hq
            exact hid (by rw [hpk, hq])
          rw [if_pos hpk, if_neg hqk, if_pos hpk]
        · rw [if_neg hpk, if_neg hpk]

/-- Consuming the identifiers' outcomes in any two orders that are
permutations of one another yields pointwise-equal stores, provided
distinct identifiers never produce photos with colliding `ID`s. -/
theorem storeGet_foldl_perm (c : Collab) (d : Decoder)
    {o₁ o₂ : List Nat} (hp : o₁.Perm o₂) :
    DistinctIDs c d o₁ →
    ∀ (st : Store) (k : Nat),
      storeGet (o₁.foldl (stepStore c d) st) k
        = storeGet (o₂.foldl (stepStore c d) st) k := by
  induction hp with
  | nil => intro _ st k; rfl
  | cons x hrest ih =>
    intro hd st k
    rw [List.foldl_cons, List.foldl_cons]
    exact ih
      (fun i hi j hj => hd i (List.mem_cons_of_mem x hi) j
        (List.mem_cons_of_mem x hj)) _ k
  | swap x y l =>
    intro hd st k
    rw [List.foldl_cons, List.foldl_cons, List.foldl_cons, List.foldl_cons]
    refine storeGet_foldl_congr c d l _ _ (fun k' => ?_) k
    exact (stepStore_comm c d x y st
      (hd x (List.mem_cons_of_mem y (List.mem_cons_self x l)) y
        (List.mem_cons_self y (x :: l))) k').symm
  | trans h₁ h₂ ih₁ ih₂ =>
    intro hd st k
    rw [ih₁ hd st k]
    refine ih₂ (fun i hi j hj => ?_) st k
    exact hd i (h₁.mem_iff.mpr hi) j (h₁.mem_iff.mpr hj)

/-- WaitGroup accounting invariant of the interleaving semantics: the
counter always equals `wg.Add(1)` calls minus `wg.Done()` calls, and the
live goroutines are exactly the spawns not yet signalled done. -/
theorem reach_wg_accounting (c : Collab) (d : Decoder) (n : Nat)
    (s : GoState) (h : Reach c d (initState n) s) :
    s.wg = (s.spawned : Int) - (s.doneCalls : Int)
    ∧ s.workers.length + s.doneCalls = s.spawned := by
  induction h with
  | refl =>
    constructor
    · simp [initState]
    · simp [initState]
  | tail hr hstep ih =>
    obtain ⟨ih1, ih2⟩ := ih
    cases hstep with
    | deliver_success pre post nd t r hw ha hf =>
      refine ⟨by simpa using ih1, ?_⟩
      rw [hw] at ih2
      simp only [List.length_append, List.length_cons] at ih2
      dsimp only
      simp only [List.length_append, List.length_cons]
      omega
    | deliver_failure pre post nd m t hw ha hf =>
      refine ⟨by simpa using ih1, ?_⟩
      rw [hw] at ih2
      simp only [List.length_append, List.length_cons] at ih2
      dsimp only
      simp only [List.length_append, List.length_cons]
      omega
    | worker_done pre post hw =>
      rw [hw] at ih2
      simp only [List.length_append, List.length_cons] at ih2
      dsimp only
      constructor
      · omega
      · simp only [List.length_append]
        omega
    | agg_success r ha =>
      exact ⟨ih1, ih2⟩
    | agg_fail_retry nd ha hlim =>
      dsimp only
      constructor
      · omega
      · simp only [List.length_append, List.length_cons, List.length_nil]
        omega
    | agg_fail_drop nd ha hlim =>
      exact ⟨ih1, ih2⟩
    | complete hwg hc =>
      exact ⟨ih1, ih2⟩

/-! ### Claim theorems -/

/-- C1: the claim demands that completion is signalled iff no attempt is in
flight, no outcome is unconsumed and no respawn is pending.  The code
violates it: in the concrete schedule `raceS0 → raceS1 → raceS2 → raceS3 →
raceS4` of the real interleaving semantics (one identifier, every attempt
failing), the worker's trailing `wg.Done()` drives the WaitGroup counter to
zero before the aggregator has processed the failure, so `wg.Wait()`
returns (`raceS3.completed = true`) while the failure outcome is still
unconsumed (`raceS3.agg = busyFail ⟨1,0⟩`) and its retry respawn still
pending (`0 + 1 ≤ 3`), and afterwards a fresh attempt is actually in
flight (`raceS4`). -/
theorem completion_signaled_with_respawn_pending :
    Step raceCollab raceDecode raceS0 raceS1
    ∧ Step raceCollab raceDecode raceS1 raceS2
    ∧ Step raceCollab raceDecode raceS2 raceS3
    ∧ Step raceCollab raceDecode raceS3 raceS4
    ∧ raceS0 = initState 1
    ∧ raceS2.wg = 0
    ∧ raceS3.completed = true
    ∧ raceS3.agg = AggState.busyFail ⟨1, 0⟩
    ∧ (⟨1, 0⟩ : Node).Attempts + 1 ≤ 3
    ∧ raceS4.completed = true
    ∧ raceS4.workers = [WorkerState.running ⟨1, 1⟩] :=
  ⟨Step.deliver_failure raceS0 [] [] ⟨1, 0⟩ ⟨1, 0⟩ 0 rfl rfl rfl,
   Step.worker_done raceS1 [] [] rfl,
   Step.complete raceS2 (by decide) rfl,
   Step.agg_fail_retry raceS3 ⟨1, 0⟩ rfl (by decide),
   rfl, by decide, rfl, rfl, by decide, rfl, rfl⟩

/-- C2 counterexample: after the reachable steps `raceS0 → raceS1 →
raceS2` (spawn delivered, `wg.Done()` executed, failure not yet consumed)
the in-flight count is 0 but spawns minus fully consumed outcomes is
1 − 0 = 1: the decrement happened via `wg.Done()` before the outcome was
fully consumed and before any respawn was registered. -/
theorem inflight_equation_fails_midrun :
    Step raceCollab raceDecode raceS0 raceS1
    ∧ Step raceCollab raceDecode raceS1 raceS2
    ∧ raceS0 = initState 1
    ∧ ¬ raceS2.wg = (raceS2.spawned : Int) - (raceS2.consumed : Int)
    ∧ raceS2.doneCalls = 1
    ∧ raceS2.consumed = 0
    ∧ raceS2.agg = AggState.busyFail ⟨1, 0⟩ :=
  ⟨Step.deliver_failure raceS0 [] [] ⟨1, 0⟩ ⟨1, 0⟩ 0 rfl rfl rfl,
   Step.worker_done raceS1 [] [] rfl,
   rfl, by decide, rfl, rfl, rfl⟩

/-- C2 (amended): in every reachable state of a run the in-flight count
equals the workers spawned so far minus the `wg.Done()` completion signals
so far — not minus the outcomes fully consumed by the aggregator — and it
is never negative. -/
theorem inflight_counter_accounting (c : Collab) (d : Decoder) (n : Nat)
    (s : GoState) (h : Reach c d (initState n) s) :
    s.wg = (s.spawned : Int) - (s.doneCalls : Int) ∧ 0 ≤ s.wg := by
  obtain ⟨h1, h2⟩ := reach_wg_accounting c d n s h
  refine ⟨h1, ?_⟩
  rw [h1]
  omega

/-- C2 witness: the accounting equation instantiated at the initial state
of a one-identifier run. -/
theorem inflight_counter_accounting_witness :
    (initState 1).wg
      = ((initState 1).spawned : Int) - ((initState 1).doneCalls : Int)
    ∧ 0 ≤ (initState 1).wg :=
  inflight_counter_accounting raceCollab raceDecode 1 (initState 1)
    Relation.ReflTransGen.refl

/-- C3 counterexample: identifier 2's every attempt (1–4) fails and its
chain runs exactly 4 attempts, yet identifier 2 is present in the final
store, because identifier 1's successful payload parses to a photo whose
`ID` field is 2 and the aggregator keys the store by that field. -/
theorem exhausted_identifier_still_stored :
    successBody (strayCollab 2 1) = none
    ∧ successBody (strayCollab 2 2) = none
    ∧ successBody (strayCollab 2 3) = none
    ∧ successBody (strayCollab 2 4) = none
    ∧ runId strayCollab strayDecode 2 = (none, 4)
    ∧ storeGet (finalStoreOrdered strayCollab strayDecode [1, 2]) 2
        = some strayPhoto :=
  ⟨rfl, rfl, rfl, rfl, by decide, by decide⟩

/-- C3 (amended): for every identifier whose attempts 1–4 all fail, the
chain terminates with no photo after exactly 4 = R+1 fetch invocations (no
further worker is spawned after the 4th failure), and the identifier is
absent from the final store provided no identifier's successful payload
parses to a photo whose `ID` field equals it. -/
theorem retry_limit_exhaustion (c : Collab) (d : Decoder)
    (order : List Nat) (id : Nat)
    (hfail : ∀ k : Nat, 1 ≤ k → k ≤ 4 → successBody (c id k) = none)
    (hstray : ∀ j ∈ order, ∀ q : Photo, (runId c d j).1 = some q → q.ID ≠ id) :
    runId c d id = (none, 4)
    ∧ storeGet (finalStoreOrdered c d order) id = none := by
  constructor
  · unfold runId
    exact runNode_all_fail c d id 4 0 rfl (fun k h1 h2 => hfail k h1 h2)
  · unfold finalStoreOrdered
    rw [storeGet_foldl_no_insert c d order id hstray []]
    rfl

/-- C3 witness: a one-identifier run in which every attempt fails. -/
theorem retry_limit_exhaustion_witness :
    runId raceCollab raceDecode 1 = (none, 4)
    ∧ storeGet (finalStoreOrdered raceCollab raceDecode [1]) 1 = none :=
  retry_limit_exhaustion raceCollab raceDecode [1] 1
    (fun _ _ _ => rfl)
    (by
      intro j hj q hq
      have hn : (runId raceCollab raceDecode j).1 = none := by
        simp only [List.mem_singleton] at hj
        subst hj
        rfl
      rw [hn] at hq
      exact Option.noConfusion hq)

/-- C4 counterexample: identifier 1's first attempt succeeds and its
payload parses, yet identifier 1 is absent from the final store — the
parsed value is stored under the payload's own `ID` field 5 instead. -/
theorem identifier_missing_despite_parse :
    successBody (mislabelCollab 1 1) = some [1]
    ∧ parse mislabelDecode [1] = some mislabelPhoto
    ∧ (runId mislabelCollab mislabelDecode 1).1 = some mislabelPhoto
    ∧ storeGet (finalStoreOrdered mislabelCollab mislabelDecode [1]) 1 = none
    ∧ storeGet (finalStoreOrdered mislabelCollab mislabelDecode [1]) 5
        = some mislabelPhoto :=
  ⟨rfl, rfl, by decide, by decide, by decide⟩

/-- C4 (amended): if an identifier's chain terminates with a parsed photo
`p`, then the final store maps `p.ID` — and hence the identifier itself
whenever the payload's `ID` equals it — to `p`, provided no other
identifier's photo collides on that key. -/
theorem parsed_success_stored (c : Collab) (d : Decoder) (order : List Nat)
    (id : Nat) (p : Photo)
    (hterm : (runId c d id).1 = some p)
    (hid : p.ID = id)
    (hmem : id ∈ order)
    (hco : ∀ j ∈ order, ∀ q : Photo,
      (runId c d j).1 = some q → q.ID = id → q = p) :
    storeGet (finalStoreOrdered c d order) id = some p := by
  obtain ⟨l₁, l₂, rfl⟩ := List.append_of_mem hmem
  unfold finalStoreOrdered
  rw [List.foldl_append, List.foldl_cons]
  refine storeGet_foldl_preserve c d l₂ id p ?_ _ ?_
  · intro j hj q hq hq2
    exact hco j (List.mem_append_right l₁ (List.mem_cons_of_mem id hj)) q hq hq2
  · unfold stepStore
    rw [hterm, storeGet_storeSet, if_pos hid]

/-- C4 witness: identifier 1 succeeds with a payload echoing its own id in
a two-identifier run, and ends up stored under key 1. -/
theorem parsed_success_stored_witness :
    storeGet (finalStoreOrdered alwaysOkCollab echoDecode [1, 2]) 1
      = some ⟨1, "", "", ""⟩ :=
  parsed_success_stored alwaysOkCollab echoDecode [1, 2] 1 ⟨1, "", "", ""⟩
    (by decide) rfl (by decide)
    (by
      have h1 : (runId alwaysOkCollab echoDecode 1).1
          = some ⟨1, "", "", ""⟩ := by decide
      have h2 : (runId alwaysOkCollab echoDecode 2).1
          = some ⟨2, "", "", ""⟩ := by decide
      intro j hj q hq hqid
      fin_cases hj
      · rw [h1] at hq
        obtain rfl := Option.some.inj hq
        rfl
      · rw [h2] at hq
        obtain rfl := Option.some.inj hq
        exact absurd hqid (by decide))

/-- C5 counterexample: the success message carries no identifier — two
workers for different identifiers 1 ≠ 2 emit the very same `Response` for
the same body — and the aggregator inserts the parsed value under the
payload's own `ID` field 7, not under either fetched identifier. -/
theorem success_message_lacks_identifier :
    fetch ⟨1, 0⟩ (HttpOutcome.ok 200 (some [9])) 0
      = fetch ⟨2, 0⟩ (HttpOutcome.ok 200 (some [9])) 0
    ∧ (1 : Nat) ≠ 2
    ∧ handleSuccess payloadDecode [] ⟨"Success", [9], 0⟩ = [(7, payloadPhoto)]
    ∧ storeGet (handleSuccess payloadDecode [] ⟨"Success", [9], 0⟩) 1 = none
    ∧ storeGet (handleSuccess payloadDecode [] ⟨"Success", [9], 0⟩) 2 = none :=
  ⟨rfl, by decide, by decide, by decide, by decide⟩

/-- C5 (amended): every success outcome is
`Response{"Success", body, elapsed}` — payload and latency but no
identifier — and on parse success the aggregator inserts the parsed value
into the store keyed by the parsed payload's own `ID` field. -/
theorem success_outcome_shape (n : Node) (o : HttpOutcome) (t : Nat)
    (b : Bytes) (d : Decoder) (st : Store) (p : Photo)
    (hb : successBody o = some b) (hp : parse d b = some p) :
    fetch n o t = ChanMsg.toChr ⟨"Success", b, t⟩
    ∧ storeGet (handleSuccess d st ⟨"Success", b, t⟩) p.ID = some p := by
  refine ⟨fetch_toChr_of_success n o t b hb, ?_⟩
  have hh : handleSuccess d st ⟨"Success", b, t⟩ = storeSet st p.ID p := by
    unfold handleSuccess
    dsimp only
    rw [hp]
  rw [hh, storeGet_storeSet, if_pos rfl]

/-- C5 witness: a concrete success outcome whose payload parses to
`payloadPhoto`, stored under key 7. -/
theorem success_outcome_shape_witness :
    fetch ⟨1, 0⟩ (HttpOutcome.ok 200 (some [9])) 4
      = ChanMsg.toChr ⟨"Success", [9], 4⟩
    ∧ storeGet (handleSuccess payloadDecode [] ⟨"Success", [9], 4⟩)
        payloadPhoto.ID = some payloadPhoto :=
  success_outcome_shape ⟨1, 0⟩ (HttpOutcome.ok 200 (some [9])) 4 [9]
    payloadDecode [] payloadPhoto rfl rfl

/-- C6: a success outcome whose payload fails to parse is dropped
silently: the aggregator's `chr` branch leaves the store unchanged, a
success message always ends the chain after that single fetch (no retry is
triggered by a decode failure), and in the N = 1 always-malformed scenario
the final store is empty with the worker invoked exactly once. -/
theorem parse_failure_dropped (d : Decoder) (st : Store) (r : Response)
    (h : parse d r.Body = none) :
    handleSuccess d st r = st
    ∧ (∀ (c : Collab) (id a fuel : Nat) (b : Bytes),
        successBody (c id (a + 1)) = some b →
        (runNode c d ⟨id, a⟩ (fuel + 1)).2 = 1)
    ∧ finalStoreOrdered malformedCollab malformedDecode [1] = []
    ∧ runId malformedCollab malformedDecode 1 = (none, 1) := by
  refine ⟨?_, ?_, by decide, by decide⟩
  · unfold handleSuccess
    rw [h]
  · intro c id a fuel b hb
    simp only [runNode]
    rw [fetch_toChr_of_success _ _ _ b hb]

/-- C6 witness: the `chr` branch at a concrete malformed response. -/
theorem parse_failure_dropped_witness :
    handleSuccess malformedDecode [] ⟨"Success", [0], 0⟩ = []
    ∧ finalStoreOrdered malformedCollab malformedDecode [1] = []
    ∧ runId malformedCollab malformedDecode 1 = (none, 1) :=
  ⟨(parse_failure_dropped malformedDecode [] ⟨"Success", [0], 0⟩ rfl).1,
   (parse_failure_dropped malformedDecode [] ⟨"Success", [0], 0⟩ rfl).2.2.1,
   (parse_failure_dropped malformedDecode [] ⟨"Success", [0], 0⟩ rfl).2.2.2⟩

/-- C7: one invocation of the worker posts exactly one message to exactly
one queue: every failure condition (request construction failure,
transport failure or deadline, non-200 status, body-read failure — all the
cases with no fully successful body) posts the node on `chn` with its
attempt count untouched, a fully successful attempt posts
`Response{"Success", body, elapsed}` on `chr`, and every invocation posts
one or the other. -/
theorem worker_single_message (n : Node) (o : HttpOutcome) (t : Nat) :
    (successBody o = none → fetch n o t = ChanMsg.toChn n)
    ∧ (∀ b : Bytes, successBody o = some b →
        fetch n o t = ChanMsg.toChr ⟨"Success", b, t⟩)
    ∧ ((∃ r : Response, fetch n o t = ChanMsg.toChr r)
        ∨ fetch n o t = ChanMsg.toChn n) := by
  refine ⟨fetch_toChn_of_fail n o t,
    fun b hb => fetch_toChr_of_success n o t b hb, ?_⟩
  cases hs : successBody o with
  | none => exact Or.inr (fetch_toChn_of_fail n o t hs)
  | some b => exact Or.inl ⟨_, fetch_toChr_of_success n o t b hs⟩

/-- C7 witness: a transport failure posts the unchanged node on `chn`; a
successful attempt posts the body on `chr`. -/
theorem worker_single_message_witness :
    fetch ⟨3, 1⟩ HttpOutcome.doErr 5 = ChanMsg.toChn ⟨3, 1⟩
    ∧ fetch ⟨3, 1⟩ (HttpOutcome.ok 200 (some [4])) 5
        = ChanMsg.toChr ⟨"Success", [4], 5⟩ :=
  ⟨(worker_single_message ⟨3, 1⟩ HttpOutcome.doErr 5).1 rfl,
   (worker_single_message ⟨3, 1⟩ (HttpOutcome.ok 200 (some [4])) 5).2.1 [4] rfl⟩

/-- C8: with five identifiers, retry limit 3, identifiers 2 and 4 failing
on every attempt (so succeeding on none, limit exhausted after 4 attempts
each) and identifiers 1, 3, 5 succeeding with payloads echoing their own
ids, the final store contains exactly the entries for 1, 3 and 5, with 2
and 4 absent. -/
theorem scenario_five_identifiers :
    finalStoreOrdered scenarioCollab echoDecode [1, 2, 3, 4, 5]
      = [(1, ⟨1, "", "", ""⟩), (3, ⟨3, "", "", ""⟩), (5, ⟨5, "", "", ""⟩)]
    ∧ storeGet (finalStoreOrdered scenarioCollab echoDecode [1, 2, 3, 4, 5]) 2
        = none
    ∧ storeGet (finalStoreOrdered scenarioCollab echoDecode [1, 2, 3, 4, 5]) 4
        = none
    ∧ runId scenarioCollab echoDecode 2 = (none, 4)
    ∧ runId scenarioCollab echoDecode 4 = (none, 4) :=
  ⟨by decide, by decide, by decide, by decide, by decide⟩

/-- C9 counterexample: with the same deterministic always-succeed
collaborator (whose two payloads parse to different photos sharing
`ID = 7`), two runs that differ only in the order in which the unbuffered
channels deliver the two success messages — both orders being possible
schedules of the program — end with different final stores. -/
theorem rerun_store_differs :
    List.Perm [1, 2] [2, 1]
    ∧ storeGet (finalStoreOrdered alwaysOkCollab collideDecode [1, 2]) 7
        = some ⟨7, "second", "", ""⟩
    ∧ storeGet (finalStoreOrdered alwaysOkCollab collideDecode [2, 1]) 7
        = some ⟨7, "first", "", ""⟩
    ∧ finalStoreOrdered alwaysOkCollab collideDecode [1, 2]
        ≠ finalStoreOrdered alwaysOkCollab collideDecode [2, 1] :=
  ⟨List.Perm.swap 2 1 [], by decide, by decide, by decide⟩

/-- C9 (amended): the final store contents are a deterministic function of
the collaborator's responses — identical across any two runs, i.e. any two
consumption orders that are permutations of one another — provided photos
of distinct identifiers never collide on their `ID` field (as when each
payload echoes its own identifier). -/
theorem store_schedule_independent (c : Collab) (d : Decoder)
    (o₁ o₂ : List Nat) (hp : o₁.Perm o₂) (hd : DistinctIDs c d o₁) (k : Nat) :
    storeGet (finalStoreOrdered c d o₁) k
      = storeGet (finalStoreOrdered c d o₂) k :=
  storeGet_foldl_perm c d hp hd [] k

/-- C9 witness: the two consumption orders of an always-succeed two-run
with id-echoing payloads agree on key 1. -/
theorem store_schedule_independent_witness :
    storeGet (finalStoreOrdered alwaysOkCollab echoDecode [1, 2]) 1
      = storeGet (finalStoreOrdered alwaysOkCollab echoDecode [2, 1]) 1 :=
  store_schedule_independent alwaysOkCollab echoDecode [1, 2] [2, 1]
    (List.Perm.swap 2 1 [])
    (by
      have h1 : (runId alwaysOkCollab echoDecode 1).1
          = some ⟨1, "", "", ""⟩ := by decide
      have h2 : (runId alwaysOkCollab echoDecode 2).1
          = some ⟨2, "", "", ""⟩ := by decide
      intro i hi j hj p q hpi hqj hid
      fin_cases hi <;> fin_cases hj
      · rw [h1] at hpi hqj
        obtain rfl := Option.some.inj hpi
        obtain rfl := Option.some.inj hqj
        rfl
      · rw [h1] at hpi
        rw [h2] at hqj
        obtain rfl := Option.some.inj hpi
        obtain rfl := Option.some.inj hqj
        exact absurd hid (by decide)
      · rw [h2] at hpi
        rw [h1] at hqj
        obtain rfl := Option.some.inj hpi
        obtain rfl := Option.some.inj hqj
        exact absurd hid (by decide)
      · rw [h2] at hpi hqj
        obtain rfl := Option.some.inj hpi
        obtain rfl := Option.some.inj hqj
        rfl)
    1

/-- C10: the reporting stage looks up exactly the keys `1 … len(store)`
(`for i := 0; i < len(photos); i++` reading key `i+1`), every printed entry
comes from such a key, an entry stored under a key exceeding the store's
size is never visited and hence omitted from the listing, and the printed
total is always the store's size. -/
theorem print_visits_bounded_keys (photos : Store) (k : Nat) (p : Photo) :
    (k ∈ visitedKeys photos ↔ 1 ≤ k ∧ k ≤ photos.length)
    ∧ (storeGet photos k = some p → photos.length < k →
        k ∉ visitedKeys photos)
    ∧ (∀ q : Photo, q ∈ printedEntries photos →
        ∃ i : Nat, i < photos.length ∧ storeGet photos (i + 1) = some q)
    ∧ printedTotal photos = photos.length := by
  have hv : k ∈ visitedKeys photos ↔ 1 ≤ k ∧ k ≤ photos.length := by
    unfold visitedKeys
    simp only [List.mem_map, List.mem_range]
    constructor
    · rintro ⟨i, hi, rfl⟩
      omega
    · rintro ⟨hk1, hk2⟩
      exact ⟨k - 1, by omega, by omega⟩
  refine ⟨hv, ?_, ?_, rfl⟩
  · intro _ hk hmem
    have := hv.mp hmem
    omega
  · intro q hq
    unfold printedEntries at hq
    simp only [List.mem_filterMap, List.mem_range] at hq
    obtain ⟨i, hi, hsi⟩ := hq
    exact ⟨i, hi, hsi⟩

/-- C10 witness: a store holding only key 5 has size 1, so key 5 is never
visited: the entry is present but the printed listing is empty while the
printed total is 1. -/
theorem print_visits_bounded_keys_witness :
    storeGet [(5, payloadPhoto)] 5 = some payloadPhoto
    ∧ 5 ∉ visitedKeys [(5, payloadPhoto)]
    ∧ printedEntries [(5, payloadPhoto)] = []
    ∧ printedTotal [(5, payloadPhoto)] = 1 :=
  ⟨by decide,
   (print_visits_bounded_keys [(5, payloadPhoto)] 5 payloadPhoto).2.1
     (by decide) (by decide),
   by decide, by decide⟩
